import Mathlib

/-!
# Verification of the claudeline npm installer/launcher

Shallow embedding of the installer script (platform resolution, download URL
construction, redirect-following download, archive extraction with temp-file
cleanup, stub fallback) and of the launcher script (argument forwarding and
exit-status passthrough), together with theorems settling the specification
claims about them.

The installer script defines:
  REPO = "mstuart/ai-statusline", BINARY_NAME = "ai-statusline",
  VERSION = package.json version (modelled as a parameter `version`).
-/

set_option autoImplicit false

namespace Installer

def REPO : String := "mstuart/ai-statusline"

def BINARY_NAME : String := "ai-statusline"

/-! ### Character-list string primitives

JavaScript's `String.prototype.includes` and `String.prototype.startsWith`
are modelled by structurally recursive functions over the character list of
the string, so that every use below evaluates by kernel reduction. -/

/-- `leadsWith s pat` is true when `pat` is an initial segment of `s`. -/
def leadsWith : List Char → List Char → Bool
  | _, [] => true
  | [], _ :: _ => false
  | c :: cs, p :: ps => c == p && leadsWith cs ps

/-- `hasSubstr s pat` is true when `pat` occurs contiguously in `s`. -/
def hasSubstr : List Char → List Char → Bool
  | [], pat => pat.isEmpty
  | c :: cs, pat => leadsWith (c :: cs) pat || hasSubstr cs pat

/-- JavaScript `s.includes(sub)`. -/
def strIncludes (s sub : String) : Bool :=
  hasSubstr s.data sub.data

/-- JavaScript `s.startsWith(sub)`. -/
def strStartsWith (s sub : String) : Bool :=
  leadsWith s.data sub.data

/-- The platform key the resolver builds from the host environment:
`key` in the source is the template string `platform + "-" + arch`. -/
def platformKey (platform arch : String) : String :=
  platform ++ "-" ++ arch

/-- The `targets` table of `getPlatformTarget`, in source order. -/
def targets : List (String × String) :=
  [("darwin-x64", "x86_64-apple-darwin"),
   ("darwin-arm64", "aarch64-apple-darwin"),
   ("linux-x64", "x86_64-unknown-linux-gnu"),
   ("linux-arm64", "aarch64-unknown-linux-gnu"),
   ("win32-x64", "x86_64-pc-windows-msvc")]

/-- The supported platform set as the specification words it: the full
product darwin/linux/win32 × x64/arm64.  Written from the spec, for
comparison with the `targets` table of the source. -/
def specClaimedSupportedKeys : List (String × String) :=
  [("darwin", "x64"), ("darwin", "arm64"),
   ("linux", "x64"), ("linux", "arm64"),
   ("win32", "x64"), ("win32", "arm64")]

/-- Successful resolution: the source returns `{ target, platform, arch }`. -/
structure ResolveOk where
  target : String
  platform : String
  arch : String
  deriving Repr, DecidableEq

/-- Failed resolution: the source prints two `console.error` lines and calls
`process.exit(1)`.  We record the two messages and the exit status. -/
structure ResolveErr where
  msg1 : String
  msg2 : String
  exitStatus : Nat
  deriving Repr, DecidableEq

/-- `getPlatformTarget` from the installer script.  The unsupported branch is
modelled as an error value carrying the diagnostic messages and exit status 1
(the source terminates the process there). -/
def getPlatformTarget (platform arch : String) : Except ResolveErr ResolveOk :=
  match targets.lookup (platformKey platform arch) with
  | some t => Except.ok { target := t, platform := platform, arch := arch }
  | none => Except.error
      { msg1 := "Unsupported platform: " ++ platformKey platform arch
        msg2 := "Supported platforms: " ++ String.intercalate ", " (targets.map Prod.fst)
        exitStatus := 1 }

/-- `target.includes("windows")` from the source: substring test. -/
def isWindowsTarget (target : String) : Bool :=
  strIncludes target "windows"

/-- `getDownloadUrl` from the installer script (the unused `ext` local of the
source is omitted; `VERSION` is the `version` parameter). -/
def getDownloadUrl (version target : String) : String :=
  let archive := if isWindowsTarget target then "zip" else "tar.gz"
  "https://github.com/" ++ REPO ++ "/releases/download/v" ++ version ++ "/" ++
    BINARY_NAME ++ "-v" ++ version ++ "-" ++ target ++ "." ++ archive

/-! ## Download with redirect following -/

/-- One HTTP response as the `download` handler sees it: status code, the
optional `Location` header, and the buffered body bytes. -/
structure HttpResponse where
  statusCode : Nat
  location : Option String
  body : List Nat
  deriving Repr, DecidableEq

inductive Protocol where
  | https
  | http
  deriving Repr, DecidableEq

/-- One GET issued by `download`: which client module issued it and at what
URL. -/
structure HttpRequest where
  protocol : Protocol
  url : String
  deriving Repr, DecidableEq

/-- `redirectUrl.startsWith("https") ? https : http` from the source. -/
def protocolFor (u : String) : Protocol :=
  if strStartsWith u "https" then Protocol.https else Protocol.http

/-- The rejection message of the non-200 terminal branch; `url` is the
original argument of `download` (the handler closure captures it). -/
def dlFailMsg (status : Nat) (url : String) : String :=
  "Download failed with status " ++ toString status ++ ": " ++ url

/-- Outcome of the `download` promise.  `hang` models running out of
responses: the promise never settles. -/
inductive DlOutcome where
  | ok (body : List Nat)
  | failed (msg : String)
  | hang
  deriving Repr, DecidableEq

/-- The `handler` closure of `download`, run over the sequence of responses
the network will produce (one response per GET, in order).  Returns the
outcome together with the follow-up requests issued by redirect handling.
Mirrors the source: a 3xx response with a `Location` header re-issues the GET
at the redirect URL with the protocol chosen by `protocolFor`; otherwise a
non-200 status rejects with `dlFailMsg`; a 200 resolves with the body. -/
def handlerRun (origUrl : String) : List HttpResponse → DlOutcome × List HttpRequest
  | [] => (DlOutcome.hang, [])
  | r :: rest =>
    match r.location with
    | some redirectUrl =>
      if 300 ≤ r.statusCode ∧ r.statusCode < 400 then
        ((handlerRun origUrl rest).1,
         { protocol := protocolFor redirectUrl, url := redirectUrl } ::
           (handlerRun origUrl rest).2)
      else if r.statusCode ≠ 200 then
        (DlOutcome.failed (dlFailMsg r.statusCode origUrl), [])
      else
        (DlOutcome.ok r.body, [])
    | none =>
      if r.statusCode ≠ 200 then
        (DlOutcome.failed (dlFailMsg r.statusCode origUrl), [])
      else
        (DlOutcome.ok r.body, [])

/-- `download(url)`: the initial GET is always issued through the `https`
client (the source calls `https.get(url, handler)` unconditionally), then the
handler takes over.  Returns the outcome and every request issued. -/
def download (url : String) (responses : List HttpResponse) :
    DlOutcome × List HttpRequest :=
  ((handlerRun url responses).1,
   { protocol := Protocol.https, url := url } :: (handlerRun url responses).2)

/-! ## Filesystem effect trace -/

/-- Filesystem / process effects performed by the installer, in order.
`exec` and `unlink` record whether the underlying operation succeeded
(`execSync` throws on failure; `unlinkSync` throws when deletion fails). -/
inductive FsEvent where
  | mkdir (p : String)
  | writeFile (p : String)
  | exec (cmd : String) (ok : Bool)
  | unlink (p : String) (ok : Bool)
  | chmod (p : String) (mode : Nat)
  deriving Repr, DecidableEq

/-- The temp-file path of `extractTarGz`; `os.tmpdir()` is modelled as `tmp`
and `Date.now()` as the `stamp` parameter. -/
def tarGzTmpFile (stamp : Nat) : String :=
  "tmp/ai-statusline-" ++ toString stamp ++ ".tar.gz"

/-- The temp-file path of `extractZip`. -/
def zipTmpFile (stamp : Nat) : String :=
  "tmp/ai-statusline-" ++ toString stamp ++ ".zip"

/-- `extractTarGz` from the installer script.  The buffer is written to the
temp file, `tar` is invoked on it, and the `finally` block always attempts to
delete the temp file, swallowing any deletion error (`try { unlink } catch`):
the returned result depends on the tool invocation alone. -/
def extractTarGz (stamp : Nat) (destDir : String) (toolOk unlinkOk : Bool) :
    Except String Unit × List FsEvent :=
  let tmpFile := tarGzTmpFile stamp
  let cmd := "tar xzf \x22" ++ tmpFile ++ "\x22 -C \x22" ++ destDir ++ "\x22"
  let result : Except String Unit :=
    if toolOk then Except.ok () else Except.error ("Command failed: " ++ cmd)
  (result, [FsEvent.writeFile tmpFile, FsEvent.exec cmd toolOk,
            FsEvent.unlink tmpFile unlinkOk])

/-- `extractZip` from the installer script; same shape with `unzip -o`. -/
def extractZip (stamp : Nat) (destDir : String) (toolOk unlinkOk : Bool) :
    Except String Unit × List FsEvent :=
  let tmpFile := zipTmpFile stamp
  let cmd := "unzip -o \x22" ++ tmpFile ++ "\x22 -d \x22" ++ destDir ++ "\x22"
  let result : Except String Unit :=
    if toolOk then Except.ok () else Except.error ("Command failed: " ++ cmd)
  (result, [FsEvent.writeFile tmpFile, FsEvent.exec cmd toolOk,
            FsEvent.unlink tmpFile unlinkOk])

/-! ## Stub scripts and a small shell interpreter -/

/-- The stub content written by the fallback branch of `install`, verbatim
from the source (one form per platform family). -/
def stubContentFor (platform : String) : String :=
  if platform == "win32" then
    "@echo off\necho ai-statusline binary not installed. Run: cargo install --path . in the ai-statusline repo\nexit /b 1\n"
  else
    "#!/bin/sh\necho \x22ai-statusline binary not installed. Run: cargo install --path . in the ai-statusline repo\x22\nexit 1\n"

/-- Split a character list at newline characters. -/
def splitLinesAux (acc : List Char) : List Char → List (List Char)
  | [] => [acc.reverse]
  | c :: cs =>
    if c = '\n' then acc.reverse :: splitLinesAux [] cs
    else splitLinesAux (c :: acc) cs

/-- The decimal number at the end of a line, if any. -/
def trailingNat (l : List Char) : Option Nat :=
  let ds := (l.reverse.takeWhile (fun c => '0' ≤ c ∧ c ≤ '9')).reverse
  if ds.isEmpty then none
  else some (ds.foldl (fun n c => n * 10 + (c.toNat - 48)) 0)

/-- Text printed by an `echo` line (quotes are not echoed). -/
def echoLineText (l : List Char) : Option (List Char) :=
  if leadsWith l ("echo ".data) then some ((l.drop 5).filter (fun c => c ≠ '\x22'))
  else none

/-- Exit status requested by an `exit` line (covers `exit 1` and
`exit /b 1`). -/
def exitLineCode (l : List Char) : Option Nat :=
  if leadsWith l ("exit".data) then trailingNat l else none

/-- Result of executing a stub script. -/
structure ScriptRun where
  echoed : List String
  exitStatus : Nat
  deriving Repr, DecidableEq

/-- Execute a shell/batch stub: collect the `echo` output and exit with the
status of the last `exit` line (0 if none). -/
def runScript (content : String) : ScriptRun :=
  let ls := splitLinesAux [] content.data
  { echoed := (ls.filterMap echoLineText).map (fun l => String.mk l)
    exitStatus := ((ls.filterMap exitLineCode).getLast?).getD 0 }

/-! ## The `install` flow -/

/-- Host environment and external-world behaviour for one `install` run:
platform and architecture reported by `os`, the package version, whether a
file already exists at the destination path, the responses the network will
produce, whether the external archive tool and the temp-file deletion
succeed, and the timestamp used for the temp-file name. -/
structure InstallEnv where
  platform : String
  arch : String
  version : String
  binExists : Bool
  responses : List HttpResponse
  extractToolOk : Bool
  unlinkOk : Bool
  tmpStamp : Nat
  deriving Repr, DecidableEq

/-- Terminal states of one installer run.  `resolveFailed` is the
unsupported-platform abort inside `getPlatformTarget` (`process.exit(1)`);
`hung` models a download whose promise never settles. -/
inductive InstallResult where
  | resolveFailed
  | alreadyInstalled (p : String)
  | installed (p : String)
  | stubWritten (p : String)
  | hung
  deriving Repr, DecidableEq

/-- Observable outcome of one installer process run: terminal state, process
exit status (`none` when the process never exits), requests issued, stdout
lines, stderr lines (`console.warn` / `console.error`), filesystem events,
and the stub file written by the fallback (path and content), if any. -/
structure InstallTrace where
  result : InstallResult
  exitStatus : Option Nat
  requests : List HttpRequest
  logs : List String
  errs : List String
  events : List FsEvent
  stub : Option (String × String)
  deriving Repr, DecidableEq

/-- `path.join(binDir, ...)`: destination binary path; `binDir`
(`path.join(__dirname, "..", "bin")`) is modelled as `bin`. -/
def binPathOf (platform : String) : String :=
  "bin/" ++ (if platform == "win32" then BINARY_NAME ++ ".exe" else BINARY_NAME)

/-- The two stdout lines printed before the download starts. -/
def dlLogs (version target : String) : List String :=
  ["Downloading ai-statusline v" ++ version ++ " for " ++ target ++ "...",
   "  URL: " ++ getDownloadUrl version target]

/-- The five `console.warn` lines of the catch block. -/
def failWarns (errMsg : String) : List String :=
  ["Failed to download pre-built binary: " ++ errMsg,
   "You can build from source instead:",
   "  cargo install --path .",
   "Or download manually from:",
   "  https://github.com/" ++ REPO ++ "/releases"]

/-- The catch block of `install`: warn, `mkdirSync(binDir)`, write the
platform-specific stub at the destination, and `chmod 0o755` it off win32.
The run resolves normally, so the process exits 0. -/
def stubTrace (platform binPath : String) (requests : List HttpRequest)
    (logs : List String) (errMsg : String) (priorEvents : List FsEvent) :
    InstallTrace :=
  { result := InstallResult.stubWritten binPath
    exitStatus := some 0
    requests := requests
    logs := logs
    errs := failWarns errMsg
    events := priorEvents ++ [FsEvent.mkdir "bin", FsEvent.writeFile binPath] ++
      (if platform ≠ "win32" then [FsEvent.chmod binPath 0o755] else [])
    stub := some (binPath, stubContentFor platform) }

/-- The extraction stage of the `try` block: `mkdirSync(binDir)`, then
`extractZip` on windows targets and `extractTarGz` otherwise, then
`chmod 0o755` off win32; an extraction error falls to the catch block.
(The `Downloaded N MB` progress line is elided: its floating-point
formatting carries no claim.) -/
def installExtract (env : InstallEnv) (pr : ResolveOk)
    (requests : List HttpRequest) (logs : List String) : InstallTrace :=
  match (if isWindowsTarget pr.target then
           extractZip env.tmpStamp "bin" env.extractToolOk env.unlinkOk
         else
           extractTarGz env.tmpStamp "bin" env.extractToolOk env.unlinkOk) with
  | (Except.error msg, evs) =>
    stubTrace pr.platform (binPathOf pr.platform) requests logs msg
      ([FsEvent.mkdir "bin"] ++ evs)
  | (Except.ok _, evs) =>
    { result := InstallResult.installed (binPathOf pr.platform)
      exitStatus := some 0
      requests := requests
      logs := logs ++ ["  Installed to " ++ binPathOf pr.platform]
      errs := []
      events := [FsEvent.mkdir "bin"] ++ evs ++
        (if pr.platform ≠ "win32" then [FsEvent.chmod (binPathOf pr.platform) 0o755] else [])
      stub := none }

/-- The download stage of `install`: a rejected download is caught and falls
to the stub fallback; an unsettled download leaves the process hanging. -/
def installFetch (env : InstallEnv) (pr : ResolveOk) : InstallTrace :=
  match download (getDownloadUrl env.version pr.target) env.responses with
  | (DlOutcome.hang, reqs) =>
    { result := InstallResult.hung, exitStatus := none, requests := reqs
      logs := dlLogs env.version pr.target, errs := [], events := [], stub := none }
  | (DlOutcome.failed msg, reqs) =>
    stubTrace pr.platform (binPathOf pr.platform) reqs (dlLogs env.version pr.target) msg []
  | (DlOutcome.ok _, reqs) =>
    installExtract env pr reqs (dlLogs env.version pr.target)

/-- `install` from the installer script, as one process run: resolve the
platform (aborting the process with status 1 when unsupported), short-circuit
when the destination file exists, otherwise download / extract / chmod with
the catch-all stub fallback.  A run that completes resolves the promise and
the process exits 0 (the top-level `install().catch` never fires on these
paths). -/
def install (env : InstallEnv) : InstallTrace :=
  match getPlatformTarget env.platform env.arch with
  | Except.error e =>
    { result := InstallResult.resolveFailed, exitStatus := some 1
      requests := [], logs := [], errs := [e.msg1, e.msg2], events := [], stub := none }
  | Except.ok pr =>
    if env.binExists then
      { result := InstallResult.alreadyInstalled (binPathOf pr.platform), exitStatus := some 0
        requests := []
        logs := ["ai-statusline binary already installed at " ++ binPathOf pr.platform]
        errs := [], events := [], stub := none }
    else
      installFetch env pr

end Installer

namespace Launcher

/-- The `error` field of a `spawnSync` result: an error code such as
`ENOENT` and a message. -/
structure SpawnError where
  code : Option String
  message : String
  deriving Repr, DecidableEq

/-- A `spawnSync` result as the launcher inspects it: launch error, if any,
and the child's exit status (`null` when the child produced none). -/
structure SpawnResult where
  error : Option SpawnError
  status : Option Int
  deriving Repr, DecidableEq

/-- Observable behaviour of one launcher run: the binary spawned, the
arguments passed to it, the stdio disposition, stderr lines, and the
launcher's own exit status. -/
structure LauncherOutcome where
  spawnedBin : String
  spawnedArgs : List String
  stdio : String
  errMessages : List String
  exitStatus : Int
  deriving Repr, DecidableEq

/-- The launcher script `bin/cli.js`: spawn the sibling binary with
`process.argv.slice(2)` and `stdio: inherit`; on a missing binary print the
fixed reinstall hint and exit 1; on any other launch error print its message
verbatim and exit 1; otherwise exit with `result.status ?? 1`. -/
def cliRun (platform : String) (argv : List String) (res : SpawnResult) :
    LauncherOutcome :=
  let ext := if platform == "win32" then ".exe" else ""
  let bin := "claudeline-bin" ++ ext
  let args := argv.drop 2
  match res.error with
  | some e =>
    if e.code == some "ENOENT" then
      { spawnedBin := bin, spawnedArgs := args, stdio := "inherit"
        errMessages := ["claudeline binary not found. Try reinstalling: npm install -g claudeline"]
        exitStatus := 1 }
    else
      { spawnedBin := bin, spawnedArgs := args, stdio := "inherit"
        errMessages := [e.message], exitStatus := 1 }
  | none =>
    { spawnedBin := bin, spawnedArgs := args, stdio := "inherit"
      errMessages := [], exitStatus := res.status.getD 1 }

end Launcher

/-- A concrete linux-x64 environment with one 200 response and a working
extraction tool, used as a test fixture by the witnesses below. -/
def sampleLinuxEnv : Installer.InstallEnv :=
  { platform := "linux", arch := "x64", version := "1.2.0", binExists := false,
    responses := [{ statusCode := 200, location := none, body := [1, 2, 3] }],
    extractToolOk := true, unlinkOk := true, tmpStamp := 7 }

/-- The same fixture with a terminal 404 response. -/
def sample404Env : Installer.InstallEnv :=
  { sampleLinuxEnv with
      responses := [{ statusCode := 404, location := none, body := [] }] }

/-! ## Helper lemmas -/

namespace Installer

theorem getPlatformTarget_ok {p a t : String}
    (h : targets.lookup (platformKey p a) = some t) :
    getPlatformTarget p a = Except.ok { target := t, platform := p, arch := a } := by
  unfold getPlatformTarget
  rw [h]

theorem getPlatformTarget_platform {p a : String} {pr : ResolveOk}
    (h : getPlatformTarget p a = Except.ok pr) : pr.platform = p := by
  unfold getPlatformTarget at h
  rcases hl : targets.lookup (platformKey p a) with _ | t
  · rw [hl] at h
    simp at h
  · rw [hl] at h
    simp only [Except.ok.injEq] at h
    rw [← h]

theorem install_eq_fetch {env : InstallEnv} {tgt : String}
    (h : targets.lookup (platformKey env.platform env.arch) = some tgt)
    (hb : env.binExists = false) :
    install env =
      installFetch env { target := tgt, platform := env.platform, arch := env.arch } := by
  unfold install
  rw [getPlatformTarget_ok h]
  simp [hb]

/-- Exhaustive classification of an `installFetch` run: it hangs, writes the
stub, or installs the extracted binary; nothing else happens. -/
theorem installFetch_classify (env : InstallEnv) (pr : ResolveOk) :
    ((installFetch env pr).result = InstallResult.hung ∧
      (installFetch env pr).exitStatus = none ∧ (installFetch env pr).stub = none) ∨
    ((installFetch env pr).result = InstallResult.stubWritten (binPathOf pr.platform) ∧
      (installFetch env pr).exitStatus = some 0 ∧
      (installFetch env pr).stub = some (binPathOf pr.platform, stubContentFor pr.platform)) ∨
    ((installFetch env pr).result = InstallResult.installed (binPathOf pr.platform) ∧
      (installFetch env pr).exitStatus = some 0 ∧ (installFetch env pr).stub = none) := by
  unfold installFetch
  rcases hd : download (getDownloadUrl env.version pr.target) env.responses with ⟨out, reqs⟩
  cases out with
  | hang => left; exact ⟨rfl, rfl, rfl⟩
  | failed msg => right; left; exact ⟨rfl, rfl, rfl⟩
  | ok body =>
    right
    unfold installExtract
    cases hw : isWindowsTarget pr.target with
    | true =>
      cases ht : env.extractToolOk with
      | true => right; simp [extractZip]
      | false => left; simp [extractZip, stubTrace]
    | false =>
      cases ht : env.extractToolOk with
      | true => right; simp [extractTarGz]
      | false => left; simp [extractTarGz, stubTrace]

/-- Exhaustive classification of a whole `install` process run, with the
exit status of each terminal state. -/
theorem install_classify (env : InstallEnv) :
    ((install env).result = InstallResult.resolveFailed ∧ (install env).exitStatus = some 1) ∨
    ((install env).result = InstallResult.alreadyInstalled (binPathOf env.platform) ∧
      (install env).exitStatus = some 0) ∨
    ((install env).result = InstallResult.hung ∧ (install env).exitStatus = none) ∨
    ((install env).result = InstallResult.stubWritten (binPathOf env.platform) ∧
      (install env).exitStatus = some 0) ∨
    ((install env).result = InstallResult.installed (binPathOf env.platform) ∧
      (install env).exitStatus = some 0) := by
  unfold install
  rcases hg : getPlatformTarget env.platform env.arch with e | pr
  · left
    exact ⟨rfl, rfl⟩
  · have hp : pr.platform = env.platform := getPlatformTarget_platform hg
    cases hbe : env.binExists with
    | true =>
      right; left
      simp [hbe, hp]
    | false =>
      simp only [hbe, Bool.false_eq_true, if_false]
      rcases installFetch_classify env pr with ⟨h1, h2, _⟩ | ⟨h1, h2, _⟩ | ⟨h1, h2, _⟩
      · right; right; left
        exact ⟨h1, h2⟩
      · right; right; right; left
        rw [hp] at h1
        exact ⟨h1, h2⟩
      · right; right; right; right
        rw [hp] at h1
        exact ⟨h1, h2⟩

/-! ## Claim theorems -/

/-- C1 counterexample: on the unsupported platform pair win32-arm64 with no
binary present, the process exits with status 1 while neither extraction nor
the stub fallback has populated the destination path, so the invariant as
claimed (with the already-installed short-circuit as its only exception)
fails at this input. -/
theorem c1_counterexample :
    install { platform := "win32", arch := "arm64", version := "1.0.0",
              binExists := false, responses := [], extractToolOk := true,
              unlinkOk := true, tmpStamp := 0 } =
      { result := InstallResult.resolveFailed, exitStatus := some 1,
        requests := [], logs := [],
        errs := ["Unsupported platform: win32-arm64",
                 "Supported platforms: darwin-x64, darwin-arm64, linux-x64, linux-arm64, win32-x64"],
        events := [], stub := none } := by
  rfl

/-- C1 (amended): provided platform resolution succeeds, on every run that
does not take the already-installed short-circuit and that returns (does not
hang in the download), exactly one of successful extraction and stub
fallback has populated the destination binary path when `install` returns. -/
theorem c1_exactly_one_populates (env : InstallEnv) (tgt : String)
    (h : targets.lookup (platformKey env.platform env.arch) = some tgt)
    (hb : env.binExists = false)
    (hret : (install env).result ≠ InstallResult.hung) :
    ((install env).result = InstallResult.installed (binPathOf env.platform) ∧
      (install env).stub = none ∧
      ¬(install env).result = InstallResult.stubWritten (binPathOf env.platform)) ∨
    ((install env).result = InstallResult.stubWritten (binPathOf env.platform) ∧
      (install env).stub = some (binPathOf env.platform, stubContentFor env.platform) ∧
      ¬(install env).result = InstallResult.installed (binPathOf env.platform)) := by
  rw [install_eq_fetch h hb] at hret ⊢
  rcases installFetch_classify env { target := tgt, platform := env.platform, arch := env.arch }
    with ⟨h1, _, _⟩ | ⟨h1, _, h3⟩ | ⟨h1, _, h3⟩
  · exact absurd h1 hret
  · right
    refine ⟨h1, h3, ?_⟩
    rw [h1]
    simp
  · left
    refine ⟨h1, h3, ?_⟩
    rw [h1]
    simp

/-- C1 witness: the amended theorem applied to a linux-x64 run with a 200
response and a successful extraction. -/
theorem c1_witness :
    targets.lookup (platformKey "linux" "x64") = some "x86_64-unknown-linux-gnu" ∧
    sampleLinuxEnv.binExists = false ∧
    (install sampleLinuxEnv).result ≠ InstallResult.hung ∧
    (((install sampleLinuxEnv).result = InstallResult.installed (binPathOf "linux") ∧
        (install sampleLinuxEnv).stub = none ∧
        ¬(install sampleLinuxEnv).result = InstallResult.stubWritten (binPathOf "linux")) ∨
      ((install sampleLinuxEnv).result = InstallResult.stubWritten (binPathOf "linux") ∧
        (install sampleLinuxEnv).stub = some (binPathOf "linux", stubContentFor "linux") ∧
        ¬(install sampleLinuxEnv).result = InstallResult.installed (binPathOf "linux"))) :=
  ⟨rfl, rfl, by decide,
   c1_exactly_one_populates sampleLinuxEnv "x86_64-unknown-linux-gnu" rfl rfl (by decide)⟩

/-- C2 counterexample: `("win32", "arm64")` lies in the spec's claimed
supported product darwin/linux/win32 × x64/arm64, yet `getPlatformTarget`
rejects it (there is no `win32-arm64` entry in the `targets` table). -/
theorem c2_counterexample :
    ("win32", "arm64") ∈ specClaimedSupportedKeys ∧
    getPlatformTarget "win32" "arm64" = Except.error
      { msg1 := "Unsupported platform: win32-arm64"
        msg2 := "Supported platforms: darwin-x64, darwin-arm64, linux-x64, linux-arm64, win32-x64"
        exitStatus := 1 } :=
  ⟨by decide, by rfl⟩

/-- C2 (amended): the supported set is the five keys of the `targets` table
(win32-arm64 is not supported); each maps to its exact release-target
string, and every key outside the table fails, reporting the unmapped key
and listing all supported keys, with exit status 1. -/
theorem c2_platform_resolution (p a : String)
    (h : platformKey p a ∉ targets.map Prod.fst) :
    getPlatformTarget "darwin" "x64" =
      Except.ok { target := "x86_64-apple-darwin", platform := "darwin", arch := "x64" } ∧
    getPlatformTarget "darwin" "arm64" =
      Except.ok { target := "aarch64-apple-darwin", platform := "darwin", arch := "arm64" } ∧
    getPlatformTarget "linux" "x64" =
      Except.ok { target := "x86_64-unknown-linux-gnu", platform := "linux", arch := "x64" } ∧
    getPlatformTarget "linux" "arm64" =
      Except.ok { target := "aarch64-unknown-linux-gnu", platform := "linux", arch := "arm64" } ∧
    getPlatformTarget "win32" "x64" =
      Except.ok { target := "x86_64-pc-windows-msvc", platform := "win32", arch := "x64" } ∧
    getPlatformTarget p a = Except.error
      { msg1 := "Unsupported platform: " ++ platformKey p a
        msg2 := "Supported platforms: darwin-x64, darwin-arm64, linux-x64, linux-arm64, win32-x64"
        exitStatus := 1 } := by
  refine ⟨by rfl, by rfl, by rfl, by rfl, by rfl, ?_⟩
  simp only [targets, List.map, List.mem_cons, List.not_mem_nil, or_false, not_or] at h
  obtain ⟨h1, h2, h3, h4, h5⟩ := h
  have e1 := beq_eq_false_iff_ne.mpr h1
  have e2 := beq_eq_false_iff_ne.mpr h2
  have e3 := beq_eq_false_iff_ne.mpr h3
  have e4 := beq_eq_false_iff_ne.mpr h4
  have e5 := beq_eq_false_iff_ne.mpr h5
  unfold getPlatformTarget
  simp only [targets, List.lookup, e1, e2, e3, e4, e5]
  rfl

/-- C2 witness: the amended theorem applied at the unsupported key
`freebsd-x64`. -/
theorem c2_witness :
    platformKey "freebsd" "x64" ∉ targets.map Prod.fst ∧
    getPlatformTarget "freebsd" "x64" = Except.error
      { msg1 := "Unsupported platform: freebsd-x64"
        msg2 := "Supported platforms: darwin-x64, darwin-arm64, linux-x64, linux-arm64, win32-x64"
        exitStatus := 1 } :=
  ⟨by decide, (c2_platform_resolution "freebsd" "x64" (by decide)).2.2.2.2.2⟩

/-- C5: the download URL follows the convention
`repo/releases/download/v(version)/(binaryName)-v(version)-(target).(ext)`
with `zip` for windows targets and `tar.gz` otherwise; the documented
example URL is produced for target x86_64-unknown-linux-gnu and version
1.2.0; and every install run logs the URL built from the installer's own
version (no version negotiation). -/
theorem c5_download_url :
    (∀ version target : String, getDownloadUrl version target =
      "https://github.com/" ++ REPO ++ "/releases/download/v" ++ version ++ "/" ++
        BINARY_NAME ++ "-v" ++ version ++ "-" ++ target ++ "." ++
        (if isWindowsTarget target then "zip" else "tar.gz")) ∧
    isWindowsTarget "x86_64-pc-windows-msvc" = true ∧
    isWindowsTarget "x86_64-unknown-linux-gnu" = false ∧
    getDownloadUrl "1.2.0" "x86_64-unknown-linux-gnu" =
      "https://github.com/mstuart/ai-statusline/releases/download/v1.2.0/ai-statusline-v1.2.0-x86_64-unknown-linux-gnu.tar.gz" ∧
    (∀ (env : InstallEnv) (pr : ResolveOk),
      "  URL: " ++ getDownloadUrl env.version pr.target ∈ (installFetch env pr).logs) := by
  refine ⟨fun version target => rfl, by decide, by decide, by rfl, fun env pr => ?_⟩
  unfold installFetch
  rcases hd : download (getDownloadUrl env.version pr.target) env.responses with ⟨out, reqs⟩
  cases out with
  | hang => simp [dlLogs]
  | failed msg => simp [stubTrace, dlLogs]
  | ok body =>
    unfold installExtract
    cases hw : isWindowsTarget pr.target with
    | true =>
      cases ht : env.extractToolOk with
      | true => simp [extractZip, dlLogs]
      | false => simp [extractZip, stubTrace, dlLogs]
    | false =>
      cases ht : env.extractToolOk with
      | true => simp [extractTarGz, dlLogs]
      | false => simp [extractTarGz, stubTrace, dlLogs]

/-- C8: for both extractors, the temp archive file written at the start is
the object of an unlink attempt that appears in the event trace for every
outcome of the external tool (success and failure alike), the unlink attempt
follows the tool invocation, and the returned result is unchanged by whether
the deletion itself succeeds (a deletion failure is swallowed). -/
theorem c8_temp_cleanup (stamp : Nat) (destDir : String) (toolOk unlinkOk unlinkOk2 : Bool) :
    (extractTarGz stamp destDir toolOk unlinkOk).2 =
      [FsEvent.writeFile (tarGzTmpFile stamp),
       FsEvent.exec ("tar xzf \x22" ++ tarGzTmpFile stamp ++ "\x22 -C \x22" ++ destDir ++ "\x22") toolOk,
       FsEvent.unlink (tarGzTmpFile stamp) unlinkOk] ∧
    (extractZip stamp destDir toolOk unlinkOk).2 =
      [FsEvent.writeFile (zipTmpFile stamp),
       FsEvent.exec ("unzip -o \x22" ++ zipTmpFile stamp ++ "\x22 -d \x22" ++ destDir ++ "\x22") toolOk,
       FsEvent.unlink (zipTmpFile stamp) unlinkOk] ∧
    (FsEvent.unlink (tarGzTmpFile stamp) unlinkOk) ∈ (extractTarGz stamp destDir toolOk unlinkOk).2 ∧
    (FsEvent.unlink (zipTmpFile stamp) unlinkOk) ∈ (extractZip stamp destDir toolOk unlinkOk).2 ∧
    (extractTarGz stamp destDir toolOk unlinkOk).1 = (extractTarGz stamp destDir toolOk unlinkOk2).1 ∧
    (extractZip stamp destDir toolOk unlinkOk).1 = (extractZip stamp destDir toolOk unlinkOk2).1 := by
  refine ⟨rfl, rfl, ?_, ?_, rfl, rfl⟩
  · simp [extractTarGz]
  · simp [extractZip]

end Installer

namespace Launcher

/-- C9: the launcher forwards `argv.slice(2)` verbatim to the sibling binary
with inherited stdio; with no launch error it exits with the child's status,
defaulting to 1 when the child produced none; a missing binary (`ENOENT`)
prints the fixed reinstall hint and exits 1; any other launch error prints
its message verbatim and exits 1. -/
theorem c9_launcher_forwarding (platform : String) (argv : List String) (res : SpawnResult) :
    (cliRun platform argv res).spawnedArgs = argv.drop 2 ∧
    (cliRun platform argv res).stdio = "inherit" ∧
    (res.error = none →
      (cliRun platform argv res).errMessages = [] ∧
      (cliRun platform argv res).exitStatus = res.status.getD 1) ∧
    (res.error = none → res.status = none → (cliRun platform argv res).exitStatus = 1) ∧
    (∀ e, res.error = some e → e.code = some "ENOENT" →
      (cliRun platform argv res).errMessages =
        ["claudeline binary not found. Try reinstalling: npm install -g claudeline"] ∧
      (cliRun platform argv res).exitStatus = 1) ∧
    (∀ e, res.error = some e → e.code ≠ some "ENOENT" →
      (cliRun platform argv res).errMessages = [e.message] ∧
      (cliRun platform argv res).exitStatus = 1) := by
  rcases he : res.error with _ | e
  · refine ⟨by simp [cliRun, he], by simp [cliRun, he], ?_, ?_, ?_, ?_⟩
    · intro _
      exact ⟨by simp [cliRun, he], by simp [cliRun, he]⟩
    · intro _ hs
      simp [cliRun, he, hs]
    · intro e h
      simp at h
    · intro e h
      simp at h
  · rcases hc : e.code == some "ENOENT" with _ | _
    · refine ⟨by simp [cliRun, he, hc], by simp [cliRun, he, hc], ?_, ?_, ?_, ?_⟩
      · intro h
        simp at h
      · intro h
        simp at h
      · intro e2 h hcode
        obtain rfl : e = e2 := by injection h
        rw [hcode] at hc
        simp at hc
      · intro e2 h hcode
        obtain rfl : e = e2 := by injection h
        exact ⟨by simp [cliRun, he, hc], by simp [cliRun, he, hc]⟩
    · refine ⟨by simp [cliRun, he, hc], by simp [cliRun, he, hc], ?_, ?_, ?_, ?_⟩
      · intro h
        simp at h
      · intro h
        simp at h
      · intro e2 h hcode
        obtain rfl : e = e2 := by injection h
        exact ⟨by simp [cliRun, he, hc], by simp [cliRun, he, hc]⟩
      · intro e2 h hcode
        obtain rfl : e = e2 := by injection h
        exact absurd (by exact beq_iff_eq.mp hc) hcode

/-- C9 witness: a run with no launch error and child status 0 exits 0 and
forwards the tail of argv. -/
theorem c9_witness :
    ({ error := none, status := some 0 } : SpawnResult).error = none ∧
    (cliRun "linux" ["node", "cli.js", "--left"] { error := none, status := some 0 }).spawnedArgs = ["--left"] ∧
    (cliRun "linux" ["node", "cli.js", "--left"] { error := none, status := some 0 }).exitStatus = 0 := by
  have h := c9_launcher_forwarding "linux" ["node", "cli.js", "--left"] { error := none, status := some 0 }
  exact ⟨rfl, h.1, (h.2.2.1 rfl).2⟩

end Launcher

namespace Installer

/-- C3: the process exits 1 exactly when platform resolution aborts it; the
already-installed short-circuit, a completed install, and the stub-fallback
path (which absorbs download and extraction failures without throwing to the
caller) all exit 0; and the written stub, when executed, echoes guidance
naming the manual build command and exits with the non-zero status 1. -/
theorem c3_exit_status_discipline (env : InstallEnv) :
    ((install env).exitStatus = some 1 ↔ (install env).result = InstallResult.resolveFailed) ∧
    (∀ p, (install env).result = InstallResult.alreadyInstalled p →
      (install env).exitStatus = some 0) ∧
    (∀ p, (install env).result = InstallResult.installed p →
      (install env).exitStatus = some 0) ∧
    (∀ p, (install env).result = InstallResult.stubWritten p →
      (install env).exitStatus = some 0) ∧
    runScript (stubContentFor "win32") =
      { echoed := ["ai-statusline binary not installed. Run: cargo install --path . in the ai-statusline repo"]
        exitStatus := 1 } ∧
    (∀ platform, platform ≠ "win32" → runScript (stubContentFor platform) =
      { echoed := ["ai-statusline binary not installed. Run: cargo install --path . in the ai-statusline repo"]
        exitStatus := 1 }) ∧
    strIncludes "ai-statusline binary not installed. Run: cargo install --path . in the ai-statusline repo"
      "cargo install --path ." = true := by
  have hposix : ∀ platform, platform ≠ "win32" → runScript (stubContentFor platform) =
      { echoed := ["ai-statusline binary not installed. Run: cargo install --path . in the ai-statusline repo"]
        exitStatus := 1 } := by
    intro platform hp
    have e := beq_eq_false_iff_ne.mpr hp
    simp only [stubContentFor, e, Bool.false_eq_true, if_false]
    rfl
  refine ⟨?_, ?_, ?_, ?_, by rfl, hposix, by decide⟩ <;>
    rcases install_classify env with ⟨h1, h2⟩ | ⟨h1, h2⟩ | ⟨h1, h2⟩ | ⟨h1, h2⟩ | ⟨h1, h2⟩
  · rw [h1, h2]
    simp
  · rw [h1, h2]
    simp
  · rw [h1, h2]
    simp
  · rw [h1, h2]
    simp
  · rw [h1, h2]
    simp
  all_goals intro p hp
  all_goals rw [h1] at hp
  all_goals first
    | exact h2
    | simp at hp

/-- C3 witness: a 404 run writes the stub and still exits 0. -/
theorem c3_witness :
    (install sample404Env).result = InstallResult.stubWritten (binPathOf "linux") ∧
    (install sample404Env).exitStatus = some 0 :=
  ⟨by rfl, (c3_exit_status_discipline sample404Env).2.2.2.1 (binPathOf "linux") (by rfl)⟩

/-- C4: a 3xx response with a `Location` header re-issues the GET at the
redirect target, choosing the client by whether the redirect URL starts with
https; this repeats per redirect with no depth cap (a chain of any length n
of redirects followed by a 200 succeeds); a terminal non-200 response fails
with an error naming the status code and URL; and for one 302-with-Location
followed by a 200 the redirect is followed exactly once and install succeeds
using the final response body. -/
theorem c4_redirect_following :
    (∀ (url u : String) (r : HttpResponse) (rest : List HttpResponse),
      300 ≤ r.statusCode → r.statusCode < 400 → r.location = some u →
      handlerRun url (r :: rest) =
        ((handlerRun url rest).1,
         { protocol := protocolFor u, url := u } :: (handlerRun url rest).2)) ∧
    protocolFor "https://mirror.example/a" = Protocol.https ∧
    protocolFor "http://mirror.example/a" = Protocol.http ∧
    (∀ (url : String) (r : HttpResponse) (rest : List HttpResponse),
      r.statusCode ≠ 200 →
      ¬(300 ≤ r.statusCode ∧ r.statusCode < 400 ∧ r.location.isSome = true) →
      handlerRun url (r :: rest) = (DlOutcome.failed (dlFailMsg r.statusCode url), [])) ∧
    (∀ (url u : String) (body : List Nat) (n : Nat),
      (download url (List.replicate n { statusCode := 302, location := some u, body := [] } ++
        [{ statusCode := 200, location := none, body := body }])).1 = DlOutcome.ok body) ∧
    (∀ (url u : String) (body : List Nat),
      download url [{ statusCode := 302, location := some u, body := [] },
                    { statusCode := 200, location := none, body := body }] =
        (DlOutcome.ok body,
         [{ protocol := Protocol.https, url := url },
          { protocol := protocolFor u, url := u }])) ∧
    (∀ (env : InstallEnv) (tgt u : String) (body : List Nat),
      targets.lookup (platformKey env.platform env.arch) = some tgt →
      env.binExists = false → env.extractToolOk = true →
      env.responses = [{ statusCode := 302, location := some u, body := [] },
                       { statusCode := 200, location := none, body := body }] →
      (install env).result = InstallResult.installed (binPathOf env.platform) ∧
      (install env).requests =
        [{ protocol := Protocol.https, url := getDownloadUrl env.version tgt },
         { protocol := protocolFor u, url := u }]) := by
  have hredir : ∀ (url u : String) (r : HttpResponse) (rest : List HttpResponse),
      300 ≤ r.statusCode → r.statusCode < 400 → r.location = some u →
      handlerRun url (r :: rest) =
        ((handlerRun url rest).1,
         { protocol := protocolFor u, url := u } :: (handlerRun url rest).2) := by
    intro url u r rest h3 h4 hl
    simp [handlerRun, hl, h3, h4]
  have hchain : ∀ (url u : String) (body : List Nat) (n : Nat),
      handlerRun url (List.replicate n { statusCode := 302, location := some u, body := [] } ++
        [{ statusCode := 200, location := none, body := body }]) =
      (DlOutcome.ok body,
       List.replicate n { protocol := protocolFor u, url := u }) := by
    intro url u body n
    induction n with
    | zero => simp [handlerRun]
    | succ k ih =>
      rw [List.replicate_succ, List.cons_append,
        hredir url u { statusCode := 302, location := some u, body := [] } _ (by norm_num) (by norm_num) rfl,
        ih]
      simp [List.replicate_succ]
  have hpair : ∀ (url u : String) (body : List Nat),
      download url [{ statusCode := 302, location := some u, body := [] },
                    { statusCode := 200, location := none, body := body }] =
        (DlOutcome.ok body,
         [{ protocol := Protocol.https, url := url },
          { protocol := protocolFor u, url := u }]) := by
    intro url u body
    have h1 := hchain url u body 1
    simp only [List.replicate, List.nil_append, List.cons_append] at h1
    simp [download, h1]
  refine ⟨hredir, by rfl, by rfl, ?_, ?_, hpair, ?_⟩
  · intro url r rest hne hno
    rcases hloc : r.location with _ | u
    · simp [handlerRun, hloc, hne]
    · have hcond : ¬(300 ≤ r.statusCode ∧ r.statusCode < 400) := by
        intro hand
        exact hno ⟨hand.1, hand.2, by rw [hloc]; rfl⟩
      simp [handlerRun, hloc, hcond, hne]
  · intro url u body n
    rw [download]
    rw [hchain url u body n]
  · intro env tgt u body h hb ht hres
    rw [install_eq_fetch h hb]
    unfold installFetch
    rw [hres]
    simp only [hpair]
    unfold installExtract
    cases hw : isWindowsTarget tgt with
    | true => simp [extractZip, ht, hw]
    | false => simp [extractTarGz, ht, hw]

/-- C4 witness: one concrete 302 with a plain-http Location is followed with
the http client and, with no further response, the promise stays pending. -/
theorem c4_witness :
    (300 ≤ 302 ∧ 302 < 400) ∧
    handlerRun "https://origin.example/a"
      [{ statusCode := 302, location := some "http://mirror.example/b", body := [] }] =
      (DlOutcome.hang, [{ protocol := Protocol.http, url := "http://mirror.example/b" }]) := by
  have h := c4_redirect_following.1 "https://origin.example/a" "http://mirror.example/b"
    { statusCode := 302, location := some "http://mirror.example/b", body := [] } []
    (by norm_num) (by norm_num) rfl
  refine ⟨by norm_num, ?_⟩
  rw [h]
  rfl

/-- C6: with a file already present at the destination, `install` returns at
once reporting the existing path, with no request, no filesystem event and
no stub; and any run with the same platform and architecture that populates
a path populates this same canonical path. -/
theorem c6_idempotent (env env2 : InstallEnv) (tgt : String)
    (h : targets.lookup (platformKey env.platform env.arch) = some tgt)
    (hb : env.binExists = true) :
    install env =
      { result := InstallResult.alreadyInstalled (binPathOf env.platform)
        exitStatus := some 0
        requests := []
        logs := ["ai-statusline binary already installed at " ++ binPathOf env.platform]
        errs := [], events := [], stub := none } ∧
    (env2.platform = env.platform → env2.arch = env.arch →
      ∀ p, ((install env2).result = InstallResult.installed p ∨
            (install env2).result = InstallResult.stubWritten p ∨
            (install env2).result = InstallResult.alreadyInstalled p) →
        p = binPathOf env.platform) := by
  constructor
  · unfold install
    rw [getPlatformTarget_ok h]
    simp [hb]
  · intro hp ha p hres
    rw [← hp]
    rcases install_classify env2 with ⟨h1, _⟩ | ⟨h1, _⟩ | ⟨h1, _⟩ | ⟨h1, _⟩ | ⟨h1, _⟩ <;>
      rw [h1] at hres <;> rcases hres with h3 | h3 | h3 <;> simp at h3 <;> rw [h3]

/-- C6 witness: the theorem applied to the sample environment with the
binary already present. -/
theorem c6_witness :
    targets.lookup (platformKey "linux" "x64") = some "x86_64-unknown-linux-gnu" ∧
    ({ sampleLinuxEnv with binExists := true } : InstallEnv).binExists = true ∧
    install { sampleLinuxEnv with binExists := true } =
      { result := InstallResult.alreadyInstalled (binPathOf "linux")
        exitStatus := some 0
        requests := []
        logs := ["ai-statusline binary already installed at " ++ binPathOf "linux"]
        errs := [], events := [], stub := none } :=
  ⟨rfl, rfl,
   (c6_idempotent { sampleLinuxEnv with binExists := true } sampleLinuxEnv
     "x86_64-unknown-linux-gnu" rfl rfl).1⟩

/-- C7: a successful non-windows run (resolution succeeds, 200 download,
extraction tool succeeds) installs the binary at the destination path with
no stub write and no warning, and the chmod-0755 event on the destination
comes after the extraction events. -/
theorem c7_success_posix (env : InstallEnv) (tgt : String) (body : List Nat)
    (h : targets.lookup (platformKey env.platform env.arch) = some tgt)
    (hplat : env.platform ≠ "win32")
    (hwt : isWindowsTarget tgt = false)
    (hb : env.binExists = false)
    (hd : (download (getDownloadUrl env.version tgt) env.responses).1 = DlOutcome.ok body)
    (ht : env.extractToolOk = true) :
    (install env).result = InstallResult.installed (binPathOf env.platform) ∧
    (install env).stub = none ∧
    (install env).errs = [] ∧
    (install env).events =
      [FsEvent.mkdir "bin",
       FsEvent.writeFile (tarGzTmpFile env.tmpStamp),
       FsEvent.exec ("tar xzf \x22" ++ tarGzTmpFile env.tmpStamp ++ "\x22 -C \x22" ++ "bin" ++ "\x22") true,
       FsEvent.unlink (tarGzTmpFile env.tmpStamp) env.unlinkOk,
       FsEvent.chmod (binPathOf env.platform) 0o755] := by
  rw [install_eq_fetch h hb]
  unfold installFetch
  dsimp only
  rcases hdl : download (getDownloadUrl env.version tgt) env.responses with ⟨out, reqs⟩
  rw [hdl] at hd
  simp only at hd
  subst hd
  unfold installExtract
  dsimp only
  rw [hwt]
  simp only [Bool.false_eq_true, if_false, ht]
  simp [extractTarGz, hplat]

/-- C7 witness: the theorem applied to the sample linux environment. -/
theorem c7_witness :
    targets.lookup (platformKey "linux" "x64") = some "x86_64-unknown-linux-gnu" ∧
    (download (getDownloadUrl "1.2.0" "x86_64-unknown-linux-gnu") sampleLinuxEnv.responses).1 =
      DlOutcome.ok [1, 2, 3] ∧
    (install sampleLinuxEnv).result = InstallResult.installed (binPathOf "linux") ∧
    (install sampleLinuxEnv).stub = none := by
  have h := c7_success_posix sampleLinuxEnv "x86_64-unknown-linux-gnu" [1, 2, 3]
    rfl (by decide) (by decide) rfl rfl rfl
  exact ⟨rfl, rfl, h.1, h.2.1⟩

/-- C10: a 3xx response without a `Location` header is not followed:
`download` rejects with the download-failed error carrying that 3xx status
code and the request URL (no follow-up request is issued), and in `install`
this failure is absorbed by the stub fallback with exit status 0. -/
theorem c10_threexx_without_location (r : HttpResponse)
    (rest : List HttpResponse) (env : InstallEnv) (tgt : String)
    (h3 : 300 ≤ r.statusCode) (h4 : r.statusCode < 400) (hl : r.location = none) :
    (∀ url : String, download url (r :: rest) =
      (DlOutcome.failed (dlFailMsg r.statusCode url),
       [{ protocol := Protocol.https, url := url }])) ∧
    (targets.lookup (platformKey env.platform env.arch) = some tgt →
      env.binExists = false →
      env.responses = r :: rest →
      (install env).result = InstallResult.stubWritten (binPathOf env.platform) ∧
      (install env).exitStatus = some 0 ∧
      (install env).requests = [{ protocol := Protocol.https, url := getDownloadUrl env.version tgt }]) := by
  have hne : r.statusCode ≠ 200 := by omega
  have key : ∀ url : String, download url (r :: rest) =
      (DlOutcome.failed (dlFailMsg r.statusCode url),
       [{ protocol := Protocol.https, url := url }]) := by
    intro url
    simp [download, handlerRun, hl, hne]
  refine ⟨key, fun h hb hres => ?_⟩
  rw [install_eq_fetch h hb]
  unfold installFetch
  rw [hres]
  simp only [key]
  simp [stubTrace]

/-- C10 witness: the theorem applied to a concrete 304 response with no
Location header. -/
theorem c10_witness :
    (300 ≤ 304 ∧ 304 < 400) ∧
    download "https://origin.example/a"
      [{ statusCode := 304, location := none, body := [] }] =
      (DlOutcome.failed (dlFailMsg 304 "https://origin.example/a"),
       [{ protocol := Protocol.https, url := "https://origin.example/a" }]) := by
  have h := c10_threexx_without_location
    { statusCode := 304, location := none, body := [] } []
    { platform := "linux", arch := "x64", version := "1.0.0", binExists := false,
      responses := [], extractToolOk := true, unlinkOk := true, tmpStamp := 0 }
    "x86_64-unknown-linux-gnu" (by decide) (by decide) rfl
  exact ⟨by decide, h.1 "https://origin.example/a"⟩

end Installer
